import Mathlib

/-!
Verification of the rbpf GDB debug adapter (`src/gdb_stub.rs`) against its
natural-language specification.

The adapter sits between the `gdbstub` protocol library and a BPF virtual
machine running on a separate thread. All communication with the VM goes over
a pair of zero-capacity `mpsc::sync_channel`s carrying `VmRequest` /
`VmReply` values. We embed the adapter's pure decision logic shallowly:

* each `Target` method is modelled as a function from its inputs plus the
  observable behaviour of the reply channel (the reply received by a blocking
  `recv`, or the sequence of `try_recv` results seen by the `Continue` poll
  loop) to the list of requests it sends and the result it produces;
* `recv().unwrap()` on a disconnected channel is a Rust panic, modelled as an
  explicit `panic` outcome distinct from returned errors;
* `TargetError::Fatal(msg)` is modelled as `errFatal msg`; the (unused by this
  code) non-fatal target errors are modelled as `errNonFatal`, so that claims
  about fatal vs. recoverable errors are statable;
* machine integers are `Nat` with explicit `% 2 ^ w` where the code truncates.
-/

namespace RbpfGdb

/-- Register file of the BPF target, from `struct BpfRegs`:
ten 64-bit general registers `r`, a 32-bit stack pointer `sp`
and a 32-bit program counter `pc`. -/
structure BpfRegs where
  r : Fin 10 → Nat
  sp : Nat
  pc : Nat

instance : DecidableEq BpfRegs := fun a b =>
  decidable_of_iff (a.r = b.r ∧ a.sp = b.sp ∧ a.pc = b.pc)
    (by cases a; cases b; simp [BpfRegs.mk.injEq])

/-- The all-zero register file (`BpfRegs::default()`). -/
def regsZero : BpfRegs := ⟨fun _ => 0, 0, 0⟩

/-- Requests the adapter sends to the VM thread, from `enum VmRequest`. -/
inductive VmRequest where
  | Continue
  | Step
  | ReadReg (id : Nat)
  | ReadRegs
  | WriteReg (id : Nat) (v : Nat)
  | WriteRegs (regs : BpfRegs)
  | ReadMem (addr len : Nat)
  | WriteMem (addr len : Nat) (data : List Nat)
  | SetBrkpt (addr : Nat)
  | RemoveBrkpt (addr : Nat)
deriving DecidableEq

/-- Replies the VM thread sends back, from `enum VmReply`. -/
inductive VmReply where
  | DoneStep
  | Interrupt
  | Halted (code : Nat)
  | Terminated
  | Breakpoint
  | Err (msg : String)
  | ReadRegs (regs : BpfRegs)
  | ReadReg (v : Nat)
  | WriteRegs
  | WriteReg
  | ReadMem (bytes : List Nat)
  | WriteMem
  | SetBrkpt
  | RemoveBrkpt
deriving DecidableEq

/-- Result of one `try_recv()` call on the reply channel
(`Ok(reply)`, `Err(TryRecvError::Empty)` or `Err(TryRecvError::Disconnected)`). -/
inductive TryRecvResult where
  | msg (r : VmReply)
  | empty
  | disconnected
deriving DecidableEq

/-- Stop reasons the adapter reports to the protocol layer
(the constructors of `gdbstub`'s `StopReason` this code uses). -/
inductive StopReason where
  | DoneStep
  | Exited (code : Nat)
  | SwBreak
deriving DecidableEq

/-- Outcome of `resume`: `Ok(stop_reason)`, `Err(msg)` (the target's
`&'static str` error type), or a Rust panic (from `unwrap`). -/
inductive Outcome where
  | ok (s : StopReason)
  | err (msg : String)
  | panic (msg : String)
deriving DecidableEq

/-- Result of a `TargetResult` operation: `Ok(a)`, `Err(TargetError::Fatal(msg))`,
`Err(<non-fatal target error>)` (never produced by this code, present so that
fatal vs. recoverable is statable), or a Rust panic. -/
inductive TargetResult (α : Type) where
  | ok (a : α)
  | errFatal (msg : String)
  | errNonFatal (msg : String)
  | panic (msg : String)
deriving DecidableEq

/-- Resume actions from `gdbstub`'s `ResumeAction`; the adapter matches
`Step`, `Continue`, and a catch-all `_` for the signal-carrying variants. -/
inductive ResumeAction where
  | Step
  | Continue
  | StepWithSignal (sig : Nat)
  | ContinueWithSignal (sig : Nat)
deriving DecidableEq

/-- Whether `resume` has returned, or its `Continue` poll loop is still
running after consuming the given `try_recv` results. -/
inductive ResumeBehavior where
  | done (o : Outcome)
  | looping
deriving DecidableEq

/-- The `loop` body of `resume(Continue)`: on `Ok(Halted(c))` return
`Exited(c)`, on `Ok(Breakpoint)` return `SwBreak`, on any other reply
(`Ok(_) => continue`) and on `Empty` or `Disconnected` keep polling. -/
def continue_poll : List TryRecvResult → ResumeBehavior
  | [] => .looping
  | .msg (.Halted c) :: _ => .done (.ok (.Exited c))
  | .msg .Breakpoint :: _ => .done (.ok .SwBreak)
  | .msg _ :: rest => continue_poll rest
  | .empty :: rest => continue_poll rest
  | .disconnected :: rest => continue_poll rest

/-- `SingleThreadOps::resume`. Inputs: the action, the reply a blocking
`recv().unwrap()` would yield (`none` = channel disconnected, so the
`unwrap` panics), and the `try_recv` results the `Continue` poll loop
observes. Output: the requests sent and the behaviour. -/
def resume (action : ResumeAction) (blocking : Option VmReply)
    (polls : List TryRecvResult) : List VmRequest × ResumeBehavior :=
  match action with
  | .Step =>
    ([.Step],
      match blocking with
      | none => .done (.panic "unwrap on RecvError")
      | some .DoneStep => .done (.ok .DoneStep)
      | some (.Halted c) => .done (.ok (.Exited c))
      | some _ => .done (.err "unexpected  from VM"))
  | .Continue => ([.Continue], continue_poll polls)
  | _ => ([], .done (.err "cannot resume with signal"))

/-- Little-endian bytes of a 64-bit register value, `u64::to_le_bytes`:
byte `i` is bits `8*i .. 8*i+7` of the value. -/
def u64_to_le_bytes (v : Nat) : List Nat :=
  (List.range 8).map (fun i => v / 2 ^ (8 * i) % 256)

/-- Little-endian bytes of a 32-bit register value, `u32::to_le_bytes`. -/
def u32_to_le_bytes (v : Nat) : List Nat :=
  (List.range 4).map (fun i => v / 2 ^ (8 * i) % 256)

/-- Little-endian `u64` read of the first eight bytes of a buffer
(`Cursor::read_u64::<LittleEndian>`); callers check the length first. -/
def u64_from_le_bytes (bs : List Nat) : Nat :=
  (bs.take 8).foldr (fun b acc => b + 256 * acc) 0

/-- The elements of the array `r` in index order, as `self.r.iter()`
yields them. -/
def regList (regs : BpfRegs) : List Nat :=
  [regs.r 0, regs.r 1, regs.r 2, regs.r 3, regs.r 4,
   regs.r 5, regs.r 6, regs.r 7, regs.r 8, regs.r 9]

/-- `Registers::gdb_serialize` for `BpfRegs`: writes the ten general
registers in index order as little-endian `u64`s, then `sp` and `pc`
as little-endian `u32`s, one byte at a time through the callback
(modelled as the list of bytes written). -/
def gdb_serialize (regs : BpfRegs) : List Nat :=
  ((regList regs).foldl (fun acc v => acc ++ u64_to_le_bytes v) [])
    ++ u32_to_le_bytes regs.sp ++ u32_to_le_bytes regs.pc

/-- `Registers::gdb_deserialize` for `BpfRegs`: the body is `Ok(())` (the
real decoder is commented out behind a TODO), so it ignores the bytes and
leaves the register file unchanged; `some` is Rust's `Ok(())` with the
(unchanged) receiver, `none` would be `Err(())`. -/
def gdb_deserialize (self : BpfRegs) (_bytes : List Nat) : Option BpfRegs :=
  some self

/-- `RegId::from_raw_id` for `BpfRegId`: ids below 13 are accepted (as a
`u8`, with declared size 64 bits); anything else yields `None`. This runs
in the architecture layer, before any request reaches the channel. -/
def from_raw_id (id : Nat) : Option (Nat × Nat) :=
  if id < 13 then some (id, 64) else none

/-- `BreakpointKind::from_usize` for `BpfBreakpointKind`: only kind 0
(`BpfBpKindBrkpt`) is recognized; anything else yields `None`. This runs
in the architecture layer, before any request reaches the channel. -/
def breakpoint_kind_from_usize (kind : Nat) : Option Unit :=
  if kind = 0 then some () else none

/-- Handling of a blocking `recv().unwrap()` shared by the simple
request/reply operations: disconnection panics; the reply is then matched
by the caller-supplied continuation. -/
def recv_unwrap {α : Type} (recv : Option VmReply) (k : VmReply → TargetResult α) :
    TargetResult α :=
  match recv with
  | none => .panic "unwrap on RecvError"
  | some r => k r

/-- `SingleThreadOps::read_registers`: sends `ReadRegs`; a `ReadRegs` reply
overwrites all fields of the caller's register file, `Err(e)` maps to
`TargetError::Fatal(e)`, anything else to `Fatal("unexpected reply from VM")`.
Returns the requests sent, the result, and the (possibly updated) `regs`. -/
def read_registers (recv : Option VmReply) (regs : BpfRegs) :
    List VmRequest × TargetResult Unit × BpfRegs :=
  ([.ReadRegs],
    match recv with
    | none => (.panic "unwrap on RecvError", regs)
    | some (.ReadRegs newRegs) => (.ok (), newRegs)
    | some (.Err e) => (.errFatal e, regs)
    | some _ => (.errFatal "unexpected reply from VM", regs))

/-- `SingleThreadOps::write_registers`: sends `WriteRegs(regs)` and expects
the `WriteRegs` acknowledgement. -/
def write_registers (regs : BpfRegs) (recv : Option VmReply) :
    List VmRequest × TargetResult Unit :=
  ([.WriteRegs regs],
    recv_unwrap recv fun r =>
      match r with
      | .WriteRegs => .ok ()
      | .Err e => .errFatal e
      | _ => .errFatal "unexpected reply from VM")

/-- `SingleThreadOps::read_addrs`: sends `ReadMem(start_addr, dst.len())`;
on a `ReadMem(bytes)` reply, `debug_assert!` and `dst.copy_from_slice`
both require `bytes.len() == dst.len()`, so a length mismatch is a Rust
panic; on match the destination is filled with exactly those bytes.
Returns the requests sent, the result, and the destination contents. -/
def read_addrs (start_addr dstLen : Nat) (recv : Option VmReply) :
    List VmRequest × TargetResult (List Nat) :=
  ([.ReadMem start_addr dstLen],
    recv_unwrap recv fun r =>
      match r with
      | .ReadMem bytes =>
        if bytes.length = dstLen then .ok bytes
        else .panic "vm returned wrong number of bytes!"
      | .Err e => .errFatal e
      | _ => .errFatal "unexpected reply from VM")

/-- `SingleThreadOps::write_addrs`: sends `WriteMem(start_addr, data.len(),
data)` and expects the `WriteMem` acknowledgement. -/
def write_addrs (start_addr : Nat) (data : List Nat) (recv : Option VmReply) :
    List VmRequest × TargetResult Unit :=
  ([.WriteMem start_addr data.length data],
    recv_unwrap recv fun r =>
      match r with
      | .WriteMem => .ok ()
      | .Err e => .errFatal e
      | _ => .errFatal "unexpected reply from VM")

/-- `SingleRegisterAccess::read_register`: sends `ReadReg(id)`; a
`ReadReg(val)` reply fills the destination with the eight little-endian
bytes of `val`. -/
def read_register (reg_id : Nat) (recv : Option VmReply) :
    List VmRequest × TargetResult (List Nat) :=
  ([.ReadReg reg_id],
    recv_unwrap recv fun r =>
      match r with
      | .ReadReg val => .ok (u64_to_le_bytes val)
      | .Err e => .errFatal e
      | _ => .errFatal "unexpected reply from VM")

/-- `SingleRegisterAccess::write_register`: reads a little-endian `u64`
from the payload; fewer than eight bytes makes `read_u64` fail and the
adapter returns `Fatal("invalid number of bytes")` without sending
anything; otherwise it sends `WriteReg(id, value)` and expects the
`WriteReg` acknowledgement. -/
def write_register (reg_id : Nat) (val : List Nat) (recv : Option VmReply) :
    List VmRequest × TargetResult Unit :=
  if 8 ≤ val.length then
    ([.WriteReg reg_id (u64_from_le_bytes val)],
      recv_unwrap recv fun r =>
        match r with
        | .WriteReg => .ok ()
        | .Err e => .errFatal e
        | _ => .errFatal "unexpected reply from VM")
  else ([], .errFatal "invalid number of bytes")

/-- `SwBreakpoint::add_sw_breakpoint`: sends `SetBrkpt(addr as u32)` —
the 64-bit address truncated modulo `2 ^ 32` — and expects the
`SetBrkpt` acknowledgement. -/
def add_sw_breakpoint (addr : Nat) (recv : Option VmReply) :
    List VmRequest × TargetResult Bool :=
  ([.SetBrkpt (addr % 2 ^ 32)],
    recv_unwrap recv fun r =>
      match r with
      | .SetBrkpt => .ok true
      | .Err e => .errFatal e
      | _ => .errFatal "unexpected reply from VM")

/-- `SwBreakpoint::remove_sw_breakpoint`: sends `RemoveBrkpt(addr as u32)`
and expects the `RemoveBrkpt` acknowledgement. -/
def remove_sw_breakpoint (addr : Nat) (recv : Option VmReply) :
    List VmRequest × TargetResult Bool :=
  ([.RemoveBrkpt (addr % 2 ^ 32)],
    recv_unwrap recv fun r =>
      match r with
      | .RemoveBrkpt => .ok true
      | .Err e => .errFatal e
      | _ => .errFatal "unexpected reply from VM")

/-- Modelled from the spec: the adaptive Breakpoint Table lives on the VM
execution thread, whose code is not under `src/`; the spec describes it as
a set of addresses stored either as a *Small* unordered sequence (linear
scan) while the cardinality is at most the threshold `T = 30`, or as a
*Large* hash set once it exceeds `T`. -/
inductive BreakpointTable where
  | small (addrs : List Nat)
  | large (addrs : Finset Nat)
deriving DecidableEq

namespace BreakpointTable

/-- Modelled from the spec: the threshold `T = 30` for the Small-to-Large
variant transition. -/
def threshold : Nat := 30

/-- Modelled from the spec: a fresh table starts as the Small variant. -/
def empty : BreakpointTable := .small []

/-- Modelled from the spec: membership — Small scans the sequence, Large
queries the hash set. -/
def contains : BreakpointTable → Nat → Bool
  | .small l, a => decide (a ∈ l)
  | .large s, a => decide (a ∈ s)

/-- Modelled from the spec: insertion is idempotent; if a Small table's
cardinality would exceed `T` after inserting a new address, the table is
rebuilt as a Large one containing all prior members plus the new one;
a Large table stays Large. -/
def insert : BreakpointTable → Nat → BreakpointTable
  | .small l, a =>
    if a ∈ l then .small l
    else if threshold < l.length + 1 then .large (Insert.insert a l.toFinset)
    else .small (a :: l)
  | .large s, a => .large (Insert.insert a s)

/-- Modelled from the spec: removal is idempotent, works on the current
variant and never downgrades Large back to Small. -/
def remove : BreakpointTable → Nat → BreakpointTable
  | .small l, a => .small (l.erase a)
  | .large s, a => .large (s.erase a)

/-- Whether the table is in the Large variant. -/
def isLarge : BreakpointTable → Bool
  | .small _ => false
  | .large _ => true

/-- Well-formedness maintained by the operations: a Small table's sequence
holds no duplicates (insertion checks membership first). -/
def Wf : BreakpointTable → Prop
  | .small l => l.Nodup
  | .large _ => True

instance : DecidablePred Wf := fun t =>
  match t with
  | .small l => (inferInstance : Decidable l.Nodup)
  | .large _ => (inferInstance : Decidable True)

end BreakpointTable

/-- An insert or remove operation on the Breakpoint Table. -/
inductive BpOp where
  | ins (a : Nat)
  | rem (a : Nat)
deriving DecidableEq

/-- Apply a sequence of operations to a table, left to right. -/
def applyOps (t : BreakpointTable) (ops : List BpOp) : BreakpointTable :=
  ops.foldl (fun t op =>
    match op with
    | .ins a => t.insert a
    | .rem a => t.remove a) t

/-- The net inserted set of an operation sequence, written directly from
the spec's words: an address is a member exactly when it was inserted and
not subsequently removed. -/
def netMember (ops : List BpOp) (a : Nat) : Bool :=
  ops.foldl (fun m op =>
    match op with
    | .ins b => if a = b then true else m
    | .rem b => if a = b then false else m) false

/-- A sample register file distinct from `regsZero`, used to evaluate the
deserializer stub. -/
def regsEx : BpfRegs := ⟨fun i => if i.val = 0 then 1 else 0, 2, 3⟩

/-- The reply shapes `resume(Step)` matches explicitly (`DoneStep`,
`Halted`); everything else falls to the catch-all error arm. -/
def step_expected : VmReply → Bool
  | .DoneStep => true
  | .Halted _ => true
  | _ => false

/-- The `try_recv` results the `Continue` poll loop skips (everything
except an incoming `Halted` or `Breakpoint` reply). -/
def poll_skips : TryRecvResult → Bool
  | .msg (.Halted _) => false
  | .msg .Breakpoint => false
  | _ => true

/-- The reply shapes `read_addrs` matches explicitly (`ReadMem`, `Err`);
everything else falls to the catch-all error arm. -/
def readmem_reply_shape : VmReply → Bool
  | .ReadMem _ => true
  | .Err _ => true
  | _ => false

/-- The left fold accumulating the serialized bytes equals the right fold
concatenating each register's bytes in front of the trailing bytes. -/
theorem gdb_serialize_eq_foldr (regs : BpfRegs) :
    gdb_serialize regs =
      (regList regs).foldr (fun v acc => u64_to_le_bytes v ++ acc)
        (u32_to_le_bytes regs.sp ++ u32_to_le_bytes regs.pc) := by
  simp [gdb_serialize, regList, List.append_assoc]

/-- Claim C5: serialization emits the ten 64-bit general registers in index
order as fixed-width little-endian integers, then the 32-bit stack pointer,
then the 32-bit program counter last, for a fixed total width of 88 bytes:
bytes `8*i .. 8*i+7` are register `i`, bytes 80..83 are `sp`, bytes 84..87
are `pc`, and byte `j` of each field is bits `8*j..8*j+7` of its value. -/
theorem C5_serialize_layout (regs : BpfRegs) :
    (gdb_serialize regs).length = 88
    ∧ (∀ i : Fin 10,
        ((gdb_serialize regs).drop (8 * i.val)).take 8 = u64_to_le_bytes (regs.r i))
    ∧ ((gdb_serialize regs).drop 80).take 4 = u32_to_le_bytes regs.sp
    ∧ (gdb_serialize regs).drop 84 = u32_to_le_bytes regs.pc
    ∧ (∀ v : Nat, ∀ j : Fin 8,
        (u64_to_le_bytes v).get? j.val = some (v / 2 ^ (8 * j.val) % 256))
    ∧ (∀ v : Nat, ∀ j : Fin 4,
        (u32_to_le_bytes v).get? j.val = some (v / 2 ^ (8 * j.val) % 256)) := by
  simp only [gdb_serialize_eq_foldr]
  refine ⟨rfl, ?_, rfl, rfl, ?_, ?_⟩
  · intro i; fin_cases i <;> rfl
  · intro v j; fin_cases j <;> rfl
  · intro v j; fin_cases j <;> rfl

/-- Claim C3 (code bug): `gdb_deserialize` is an unimplemented stub that
ignores its input and returns `Ok(())`, so decoding the encoding of
`regsEx` into a zeroed register file yields the zeroed file, not
`regsEx`: the round-trip law fails. -/
theorem C3_roundtrip_fails_on_stub :
    gdb_deserialize regsZero (gdb_serialize regsEx) = some regsZero
    ∧ regsZero ≠ regsEx := by
  refine ⟨rfl, fun h => ?_⟩
  have hsp := congrArg BpfRegs.sp h
  simp [regsZero, regsEx] at hsp

/-- Claim C4 (code bug): a byte sequence shorter than the 88-byte declared
width (here the empty one) is not rejected: the stub returns success
(leaving the register file unchanged) instead of the malformed-data
error. -/
theorem C4_short_input_not_rejected :
    ([] : List Nat).length < 88
    ∧ gdb_deserialize regsZero [] = some regsZero :=
  ⟨by norm_num, rfl⟩

/-- Claim C2: `resume(Step)` sends exactly the one `Step` request and blocks
for one reply, mapping `DoneStep` to a step-done stop reason, `Halted(c)`
to an exited-with-code stop reason, and every other reply shape to the
fatal error string; the signal-carrying resume actions are rejected with
an explicit error without sending any request. -/
theorem C2_resume_step :
    ∀ (br : Option VmReply) (polls : List TryRecvResult) (c sig : Nat) (r : VmReply),
      (resume .Step br polls).1 = [.Step]
      ∧ (resume .Step (some .DoneStep) polls).2 = .done (.ok .DoneStep)
      ∧ (resume .Step (some (.Halted c)) polls).2 = .done (.ok (.Exited c))
      ∧ (step_expected r = false →
          (resume .Step (some r) polls).2 = .done (.err "unexpected  from VM"))
      ∧ resume (.StepWithSignal sig) br polls
          = ([], .done (.err "cannot resume with signal"))
      ∧ resume (.ContinueWithSignal sig) br polls
          = ([], .done (.err "cannot resume with signal")) := by
  intro br polls c sig r
  refine ⟨rfl, rfl, rfl, ?_, rfl, rfl⟩
  intro h
  cases r <;> simp_all [step_expected, resume]

/-- Witness for C2 at a concrete unexpected reply. -/
theorem C2_resume_step_witness :
    (resume .Step (some .Interrupt) []).2 = .done (.err "unexpected  from VM") :=
  (C2_resume_step (some .Interrupt) [] 0 0 .Interrupt).2.2.2.1 rfl

/-- Counterexample to claim C1: during `resume(Continue)` an unexpected
reply shape (`DoneStep`) is silently skipped — the loop keeps polling and
even accepts a later `Breakpoint` — instead of surfacing a fatal
unexpected-reply error. -/
theorem C1_unexpected_reply_skipped :
    (resume .Continue none [.msg .DoneStep, .msg .Breakpoint]).2
        = .done (.ok .SwBreak)
    ∧ (resume .Continue none [.msg .DoneStep]).2 = .looping :=
  ⟨rfl, rfl⟩

/-- Claim C1 as amended: `resume(Continue)` sends exactly one `Continue`
request and polls the reply channel non-blocking; a `Halted(c)` reply
yields the exited stop reason and a `Breakpoint` reply the
software-breakpoint stop reason, while every other poll result — any
other reply shape, an empty poll, or a disconnected channel — is silently
skipped and polling goes on. -/
theorem C1_continue_poll_semantics :
    ∀ (br : Option VmReply) (polls : List TryRecvResult) (e : TryRecvResult) (c : Nat),
      (resume .Continue br polls).1 = [.Continue]
      ∧ (resume .Continue br (.msg (.Halted c) :: polls)).2 = .done (.ok (.Exited c))
      ∧ (resume .Continue br (.msg .Breakpoint :: polls)).2 = .done (.ok .SwBreak)
      ∧ (poll_skips e = true →
          (resume .Continue br (e :: polls)).2 = (resume .Continue br polls).2)
      ∧ (resume .Continue br []).2 = .looping := by
  intro br polls e c
  refine ⟨rfl, rfl, rfl, ?_, rfl⟩
  intro h
  cases e with
  | msg r => cases r <;> simp_all [poll_skips, resume, continue_poll]
  | empty => simp [resume, continue_poll]
  | disconnected => simp [resume, continue_poll]

/-- Witness for C1's amended theorem at a concrete skipped poll result. -/
theorem C1_continue_poll_semantics_witness :
    (resume .Continue none [.empty]).2 = (resume .Continue none []).2 :=
  (C1_continue_poll_semantics none [] .empty 0).2.2.2.1 rfl

/-- Claim C7 (code bug): channel disconnection is not mapped to a fatal
adapter error — the blocking operations `unwrap` the `recv` and panic
(here `read_registers`, `resume(Step)` and the breakpoint operations), and
the `resume(Continue)` poll loop treats `Disconnected` exactly like
`Empty`, looping forever however many disconnected polls it sees. -/
theorem C7_disconnection_panics_or_loops :
    (read_registers none regsZero).2.1 = .panic "unwrap on RecvError"
    ∧ (resume .Step none []).2 = .done (.panic "unwrap on RecvError")
    ∧ (add_sw_breakpoint 0 none).2 = .panic "unwrap on RecvError"
    ∧ (remove_sw_breakpoint 0 none).2 = .panic "unwrap on RecvError"
    ∧ (write_registers regsZero none).2 = .panic "unwrap on RecvError"
    ∧ (read_addrs 0 0 none).2 = .panic "unwrap on RecvError"
    ∧ (∀ n : Nat, continue_poll (List.replicate n .disconnected) = .looping) := by
  refine ⟨rfl, rfl, rfl, rfl, rfl, rfl, ?_⟩
  intro n
  induction n with
  | zero => rfl
  | succ k ih => simpa [List.replicate_succ, continue_poll] using ih

/-- Counterexample to claim C6: a `ReadMem` reply whose payload length (2)
differs from the requested length (4) makes the adapter panic (the debug
assertion / `copy_from_slice` length check), which is not a returned fatal
adapter error. -/
theorem C6_length_mismatch_panics :
    (read_addrs 0 4 (some (.ReadMem [0, 1]))).2
      = .panic "vm returned wrong number of bytes!" := rfl

/-- Claim C6 as amended: `read_addrs` requests exactly the destination
length; a matching `ReadMem` reply fills the destination with exactly
those bytes, a mismatched one causes a panic (never silent truncation or
padding), a VM `Err` becomes a fatal target error, and any other reply
shape becomes the fatal unexpected-reply error. -/
theorem C6_read_addrs_semantics :
    ∀ (addr dstLen : Nat) (bytes : List Nat) (e : String) (r : VmReply),
      (read_addrs addr dstLen (some (.ReadMem bytes))).1 = [.ReadMem addr dstLen]
      ∧ (bytes.length = dstLen →
          (read_addrs addr dstLen (some (.ReadMem bytes))).2 = .ok bytes)
      ∧ (bytes.length ≠ dstLen →
          (read_addrs addr dstLen (some (.ReadMem bytes))).2
            = .panic "vm returned wrong number of bytes!")
      ∧ (read_addrs addr dstLen (some (.Err e))).2 = .errFatal e
      ∧ (readmem_reply_shape r = false →
          (read_addrs addr dstLen (some r)).2
            = .errFatal "unexpected reply from VM") := by
  intro addr dstLen bytes e r
  refine ⟨rfl, ?_, ?_, rfl, ?_⟩
  · intro h; simp [read_addrs, recv_unwrap, h]
  · intro h; simp [read_addrs, recv_unwrap, h]
  · intro h; cases r <;> simp_all [readmem_reply_shape, read_addrs, recv_unwrap]

/-- Witness for C6's amended theorem at a concrete matching reply. -/
theorem C6_read_addrs_semantics_witness :
    (read_addrs 7 2 (some (.ReadMem [9, 9]))).2 = .ok [9, 9] :=
  (C6_read_addrs_semantics 7 2 [9, 9] "" .DoneStep).2.1 rfl

/-- Counterexample to claim C8: a single-register write with a four-byte
payload (shorter than the eight-byte register width) is rejected before
any request is sent, but as `TargetError::Fatal("invalid number of
bytes")` — a fatal target error, not a recoverable one. -/
theorem C8_short_payload_fatal :
    write_register 3 [0, 0, 0, 0] (some .WriteReg)
      = ([], .errFatal "invalid number of bytes") := rfl

/-- Claim C8 as amended: out-of-range register ids (≥ 13) and unrecognized
breakpoint kinds (≠ 0) are rejected by the architecture's parsing steps
before any channel traffic, and a single-register write whose payload is
shorter than eight bytes is rejected before any request is sent — but the
latter is reported as a fatal target error, not a recoverable one. -/
theorem C8_validation_before_send :
    ∀ (id kind : Nat) (val : List Nat) (recv : Option VmReply),
      (13 ≤ id → from_raw_id id = none)
      ∧ (id < 13 → from_raw_id id = some (id, 64))
      ∧ (kind ≠ 0 → breakpoint_kind_from_usize kind = none)
      ∧ (val.length < 8 →
          write_register id val recv = ([], .errFatal "invalid number of bytes")) := by
  intro id kind val recv
  refine ⟨?_, ?_, ?_, ?_⟩
  · intro h
    have hn : ¬ id < 13 := by omega
    simp [from_raw_id, hn]
  · intro h; simp [from_raw_id, h]
  · intro h; simp [breakpoint_kind_from_usize, h]
  · intro h
    simp only [write_register]
    rw [if_neg (by omega)]

/-- Witness for C8's amended theorem at concrete invalid inputs. -/
theorem C8_validation_before_send_witness :
    from_raw_id 13 = none
    ∧ breakpoint_kind_from_usize 2 = none
    ∧ write_register 0 [] none = ([], .errFatal "invalid number of bytes") :=
  ⟨(C8_validation_before_send 13 1 [] none).1 (by norm_num),
   (C8_validation_before_send 0 2 [] none).2.2.1 (by norm_num),
   (C8_validation_before_send 0 1 [] none).2.2.2 (by norm_num)⟩

/-- Claim C10: the breakpoint operations forward the 64-bit address
truncated modulo `2 ^ 32` (the `as u32` cast), so two addresses congruent
modulo `2 ^ 32` produce identical requests. -/
theorem C10_breakpoint_addr_mod32 :
    ∀ (addr a b : Nat) (recv : Option VmReply),
      (add_sw_breakpoint addr recv).1 = [.SetBrkpt (addr % 2 ^ 32)]
      ∧ (remove_sw_breakpoint addr recv).1 = [.RemoveBrkpt (addr % 2 ^ 32)]
      ∧ (a % 2 ^ 32 = b % 2 ^ 32 →
          (add_sw_breakpoint a recv).1 = (add_sw_breakpoint b recv).1
          ∧ (remove_sw_breakpoint a recv).1 = (remove_sw_breakpoint b recv).1) := by
  intro addr a b recv
  refine ⟨rfl, rfl, fun h => ?_⟩
  have h2 : a % 4294967296 = b % 4294967296 := by norm_num at h; exact h
  exact ⟨by simp [add_sw_breakpoint, h2], by simp [remove_sw_breakpoint, h2]⟩

/-- Witness for C10 at two concrete addresses differing only in the upper
32 bits. -/
theorem C10_breakpoint_addr_mod32_witness :
    (add_sw_breakpoint (2 ^ 32 + 5) (some .SetBrkpt)).1
        = (add_sw_breakpoint 5 (some .SetBrkpt)).1
    ∧ (remove_sw_breakpoint (2 ^ 32 + 5) (some .RemoveBrkpt)).1
        = (remove_sw_breakpoint 5 (some .RemoveBrkpt)).1 :=
  ⟨((C10_breakpoint_addr_mod32 0 (2 ^ 32 + 5) 5 (some .SetBrkpt)).2.2 (by norm_num)).1,
   ((C10_breakpoint_addr_mod32 0 (2 ^ 32 + 5) 5 (some .RemoveBrkpt)).2.2 (by norm_num)).2⟩

namespace BreakpointTable

/-- Membership after an insertion: the inserted address and everything
already present, on either variant and across the Small-to-Large
transition. -/
theorem contains_insert (t : BreakpointTable) (b x : Nat) :
    (t.insert b).contains x = if x = b then true else t.contains x := by
  cases t with
  | small l =>
    by_cases hmem : b ∈ l
    · by_cases hx : x = b
      · subst hx; simp [insert, hmem, contains]
      · simp [insert, hmem, contains, hx]
    · by_cases hlen : threshold < l.length + 1
      · by_cases hx : x = b <;>
          simp [insert, hmem, hlen, contains, hx, Finset.mem_insert,
            List.mem_toFinset]
      · by_cases hx : x = b <;>
          simp [insert, hmem, hlen, contains, hx, List.mem_cons]
  | large s =>
    by_cases hx : x = b <;> simp [insert, contains, hx, Finset.mem_insert]

/-- Membership after a removal, on either variant (the Small case needs
the no-duplicates invariant). -/
theorem contains_remove (t : BreakpointTable) (b x : Nat) (hwf : t.Wf) :
    (t.remove b).contains x = if x = b then false else t.contains x := by
  cases t with
  | small l =>
    by_cases hx : x = b
    · subst hx
      simp [remove, contains, List.Nodup.not_mem_erase hwf]
    · simp [remove, contains, hx, List.mem_erase_of_ne hx]
  | large s =>
    by_cases hx : x = b <;> simp [remove, contains, hx, Finset.mem_erase]

/-- The empty table is well formed. -/
theorem wf_empty : Wf empty := List.nodup_nil

/-- Insertion preserves the no-duplicates invariant. -/
theorem wf_insert (t : BreakpointTable) (a : Nat) (h : t.Wf) : (t.insert a).Wf := by
  cases t with
  | small l =>
    by_cases hmem : a ∈ l
    · simpa [insert, hmem] using h
    · by_cases hlen : threshold < l.length + 1
      · simp [insert, hmem, hlen, Wf]
      · simp only [insert, if_neg hmem, if_neg hlen, Wf]
        exact List.nodup_cons.mpr ⟨hmem, h⟩
  | large s => trivial

/-- Removal preserves the no-duplicates invariant. -/
theorem wf_remove (t : BreakpointTable) (a : Nat) (h : t.Wf) : (t.remove a).Wf := by
  cases t with
  | small l => exact List.Nodup.erase a h
  | large s => trivial

/-- Inserting the same address twice is the same as inserting it once. -/
theorem insert_idem (t : BreakpointTable) (a : Nat) :
    (t.insert a).insert a = t.insert a := by
  cases t with
  | small l =>
    by_cases hmem : a ∈ l
    · simp [insert, hmem]
    · by_cases hlen : threshold < l.length + 1
      · simp [insert, hmem, hlen, Finset.insert_idem]
      · simp [insert, hmem, hlen, List.mem_cons]
  | large s => simp [insert, Finset.insert_idem]

/-- Removing the same address twice is the same as removing it once. -/
theorem remove_idem (t : BreakpointTable) (a : Nat) (h : t.Wf) :
    (t.remove a).remove a = t.remove a := by
  cases t with
  | small l =>
    simp only [remove, small.injEq]
    exact List.erase_of_not_mem (List.Nodup.not_mem_erase h)
  | large s => simp [remove, Finset.erase_idem]

/-- Insertion never leaves the Large variant. -/
theorem isLarge_insert (t : BreakpointTable) (a : Nat) (h : t.isLarge = true) :
    (t.insert a).isLarge = true := by
  cases t with
  | small l => simp [isLarge] at h
  | large s => simp [insert, isLarge]

/-- Removal never leaves the Large variant. -/
theorem isLarge_remove (t : BreakpointTable) (a : Nat) (h : t.isLarge = true) :
    (t.remove a).isLarge = true := by
  cases t with
  | small l => simp [isLarge] at h
  | large s => simp [remove, isLarge]

end BreakpointTable

/-- Membership after a whole operation sequence is the fold of the
per-operation membership updates, starting from the initial table's
membership. -/
theorem contains_applyOps (ops : List BpOp) :
    ∀ (t : BreakpointTable), t.Wf → ∀ (a : Nat),
      (applyOps t ops).contains a
        = ops.foldl (fun m op =>
            match op with
            | .ins b => if a = b then true else m
            | .rem b => if a = b then false else m) (t.contains a) := by
  induction ops with
  | nil => intro t _ a; rfl
  | cons op rest ih =>
    intro t hwf a
    cases op with
    | ins b =>
      have h1 : applyOps t (.ins b :: rest) = applyOps (t.insert b) rest := rfl
      rw [h1, ih _ (BreakpointTable.wf_insert t b hwf) a,
        List.foldl_cons]
      congr 1
      exact BreakpointTable.contains_insert t b a
    | rem b =>
      have h1 : applyOps t (.rem b :: rest) = applyOps (t.remove b) rest := rfl
      rw [h1, ih _ (BreakpointTable.wf_remove t b hwf) a,
        List.foldl_cons]
      congr 1
      exact BreakpointTable.contains_remove t b a hwf

/-- Claim C9: for every operation sequence on the Breakpoint Table,
membership reflects exactly the net inserted set, independent of the
Small-to-Large transition; insertion and removal are idempotent (removal
under the table invariant), and the transition is one-directional — a
Large table stays Large under both operations. -/
theorem C9_breakpoint_table :
    ∀ (ops : List BpOp) (a : Nat) (t : BreakpointTable),
      BreakpointTable.contains (applyOps BreakpointTable.empty ops) a = netMember ops a
      ∧ (t.insert a).insert a = t.insert a
      ∧ (t.Wf → (t.remove a).remove a = t.remove a)
      ∧ (t.isLarge = true →
          (t.insert a).isLarge = true ∧ (t.remove a).isLarge = true) := by
  intro ops a t
  refine ⟨?_, BreakpointTable.insert_idem t a,
    fun h => BreakpointTable.remove_idem t a h,
    fun h => ⟨BreakpointTable.isLarge_insert t a h,
      BreakpointTable.isLarge_remove t a h⟩⟩
  have h := contains_applyOps ops BreakpointTable.empty BreakpointTable.wf_empty a
  simpa [netMember, BreakpointTable.empty, BreakpointTable.contains] using h

/-- Witness for C9 at a concrete well-formed Small table and a concrete
Large table. -/
theorem C9_breakpoint_table_witness :
    ((BreakpointTable.small [5]).remove 7).remove 7
        = (BreakpointTable.small [5]).remove 7
    ∧ ((BreakpointTable.large ({3} : Finset Nat)).insert 4).isLarge = true :=
  ⟨(C9_breakpoint_table [] 7 (BreakpointTable.small [5])).2.2.1 (by decide),
   ((C9_breakpoint_table [] 4 (BreakpointTable.large ({3} : Finset Nat))).2.2.2 rfl).1⟩

end RbpfGdb

